import Mathlib

/-!
Verification of the cookiecutter-pypackage template repository.

The repository contains three Python source files: the test suite
(`tests/test_bake_project.py`), the template's generated task runner
(`{{cookiecutter.project_slug}}/tasks.py`) and the repository's own `tasks.py`.
The template tree itself (the variable schema `cookiecutter.json`, the license
templates, `pyproject.toml`, `README.rst` and the docs tree) is not part of the
source files, so the bake pipeline is modelled from the specification; the task
runner and the test-suite helpers are embedded directly from the source.
-/

set_option maxRecDepth 8192

namespace CookiecutterPypackage

/-! ## Substring machinery

File contents are modelled as `String`s; the verification suite's assertions
are literal substring checks, embedded as an executable substring search. -/

/-- `startsWithChars pat l` holds when the char list `l` begins with `pat`. -/
def startsWithChars : List Char → List Char → Bool
  | [], _ => true
  | _ :: _, [] => false
  | a :: as, b :: bs => a == b && startsWithChars as bs

/-- `hasSubChars pat l` holds when `pat` occurs contiguously inside `l`. -/
def hasSubChars (pat : List Char) : List Char → Bool
  | [] => startsWithChars pat []
  | b :: bs => startsWithChars pat (b :: bs) || hasSubChars pat bs

/-- `strHas s pat` holds when `pat` is a contiguous substring of `s`.
This embeds Python's `pat in s` on strings. -/
def strHas (s pat : String) : Bool :=
  hasSubChars pat.toList s.toList

/-! ## The variable schema and the bake pipeline

Modelled from the spec: the template tree, the variable schema
(`cookiecutter.json`) and the rendered file templates (license bodies,
`pyproject.toml`, `README.rst`, the docs tree) are not among the source files;
only the test suite that exercises them is.  The definitions below follow the
spec sections 3, 4.1, 6 and 8: a `Config` is a variable assignment, `bake`
validates the enumerated choices and materializes the file tree, and the
rendered contents carry exactly the literal fragments the spec promises. -/

/-- Modelled from the spec: a `VariableAssignment` over the recognized
variables of the schema (spec section 6): full name, license choice, the
boolean-like author-file flag and the linter-enable flags. -/
structure Config where
  full_name : String
  open_source_license : String
  create_author_file : String
  use_pylint : String
  use_mypy : String
deriving Repr, DecidableEq

/-- Modelled from the spec: the schema defaults (each variable has a declared
default; the default source package directory is `python_boilerplate`). -/
def defaultConfig : Config :=
  { full_name := "Mickey Kim"
    open_source_license := "MIT"
    create_author_file := "y"
    use_pylint := "y"
    use_mypy := "y" }

/-- The enumerated license choices (spec section 6). -/
def licenseChoices : List String :=
  ["MIT", "BSD-3-Clause", "ISC", "Apache-2.0", "GPL-3.0-only", "Not open source"]

/-- The enumerated values of the boolean-like flags. -/
def yesNoChoices : List String := ["y", "n"]

/-- Modelled from the spec: the common shape of a rendered license body — a
license-specific head, the copyright line with the bake-time year and the
author name, then the license-specific conditions text. -/
def licBody (head : String) (year : Nat) (name : String) (tail : String) : String :=
  head ++ toString year ++ ", " ++ name ++ "\n\n" ++ tail

/-- Modelled from the spec: the rendered license file text for each open-source
choice, carrying the fingerprint substrings the verification suite checks;
`none` for the "Not open source" choice (no license file is materialized). -/
def licenseText (license : String) (year : Nat) (name : String) : Option String :=
  if license == "MIT" then
    some (licBody "MIT License\n\nCopyright (c) " year name
      "Permission is hereby granted, free of charge, to any person obtaining a copy of this software and associated documentation files.\n")
  else if license == "BSD-3-Clause" then
    some (licBody "BSD License\n\nCopyright (c) " year name
      "Redistribution and use in source and binary forms are permitted provided that the following conditions are met:\n\n* Redistributions of source code must retain the above copyright notice, this list of conditions and the following disclaimer.\n")
  else if license == "ISC" then
    some (licBody "ISC License\n\nCopyright (c) " year name
      "Permission to use, copy, modify, and/or distribute this software for any purpose with or without fee is hereby granted.\n")
  else if license == "Apache-2.0" then
    some (licBody "Apache Software License 2.0\n\nCopyright (c) " year name
      "Licensed under the Apache License, Version 2.0 (the License); you may not use this file except in compliance with the License.\n")
  else if license == "GPL-3.0-only" then
    some (licBody "GNU GENERAL PUBLIC LICENSE\nVersion 3, 29 June 2007\n\nCopyright (c) " year name
      "This program is free software: you can redistribute it and/or modify it under the terms of the GNU General Public License as published by the Free Software Foundation.\n")
  else
    none

/-- Modelled from the spec: the rendered dependency manifest.  It records the
chosen license identifier exactly when the project is open source, declares the
test and linter dependencies, the configured line length and the configured
package-index URL (spec sections 4.2 and 8). -/
def pyprojectText (cfg : Config) : String :=
  "[tool.poetry]\nname = \"python_boilerplate\"\nversion = \"0.1.0\"\nauthors = [\"" ++ cfg.full_name ++ "\"]\n"
  ++ (if cfg.open_source_license == "Not open source" then ""
      else "license = \"" ++ cfg.open_source_license ++ "\"\n")
  ++ "\n[tool.poetry.dependencies]\npython = \"^3.9\"\n\n[tool.poetry.dev-dependencies]\npytest = \"*\"\n"
  ++ (if cfg.use_pylint == "y" then "pylint = \"*\"\n" else "")
  ++ (if cfg.use_mypy == "y" then "mypy = \"*\"\n" else "")
  ++ "\n[tool.black]\nline-length = 120\n\n[[tool.poetry.source]]\nname = \"artifactory\"\nurl = \"https://artifactory.aws.gel.ac/artifactory/api/pypi/pypi/simple\"\n"

/-- Modelled from the spec: the rendered readme; the License section is present
exactly when the project is open source (spec section 8). -/
def readmeText (cfg : Config) : String :=
  "python_boilerplate\n==================\n\nPython Boilerplate contains all the boilerplate you need to create a Python package.\n\nFeatures\n--------\n\n* TODO\n"
  ++ (if cfg.open_source_license == "Not open source" then ""
      else "\nLicense\n-------\n\nFree software: " ++ cfg.open_source_license ++ "\n")

/-- Modelled from the spec: the docs table-of-contents index; the authors entry
is present exactly when the author-file flag is "y", between the contributing
and history entries (spec section 8). -/
def docsIndexText (cfg : Config) : String :=
  "Welcome to Python Boilerplate documentation!\n============================================\n\n.. toctree::\n   :maxdepth: 2\n\n   readme\n   installation\n   usage\n   modules\n   contributing\n"
  ++ (if cfg.create_author_file == "y" then "   authors\n" else "")
  ++ "   history\n"

/-- Modelled from the spec: the generated test module imports the test
framework (spec section 6). -/
def testModuleText : String :=
  "\"\"\"Tests for python_boilerplate.\"\"\"\nimport pytest\n\n\ndef test_content() -> None:\n    assert True\n"

/-- Modelled from the spec: fixed lint-config file contents. -/
def flake8Text : String := "[flake8]\nmax-line-length = 120\n"

/-- Modelled from the spec: fixed lint-config file contents. -/
def pylintrcText : String := "[MASTER]\nignore=CVS\n"

/-- Modelled from the spec: the authors file rendered at the project root. -/
def authorsText (cfg : Config) : String :=
  "Credits\n=======\n\nDevelopment Lead\n----------------\n\n* " ++ cfg.full_name ++ "\n"

/-- Modelled from the spec: the docs-tree authors page. -/
def docsAuthorsText : String := ".. include:: ../AUTHORS.rst\n"

/-- Modelled from the spec: the materialized file tree of one bake, as a list
of (path segments, rendered contents) pairs.  The license file and the authors
files are conditionally included (spec sections 4.2 and 6). -/
def bakeFiles (cfg : Config) (year : Nat) : List (List String × String) :=
  [(["pyproject.toml"], pyprojectText cfg),
   ([".flake8"], flake8Text),
   ([".pylintrc"], pylintrcText),
   (["README.rst"], readmeText cfg)]
  ++ (match licenseText cfg.open_source_license year cfg.full_name with
      | some t => [(["LICENSE"], t)]
      | none => [])
  ++ (if cfg.create_author_file == "y" then
        [(["AUTHORS.rst"], authorsText cfg), (["docs", "authors.rst"], docsAuthorsText)]
      else [])
  ++ [(["docs", "index.rst"], docsIndexText cfg),
      (["docs", "contributing.rst"], "Contributing\n============\n"),
      (["docs", "history.rst"], "History\n=======\n"),
      (["tests", "test_python_boilerplate.py"], testModuleText),
      (["python_boilerplate", "python_boilerplate.py"], "def main() -> None:\n    return None\n")]

/-- The result of one bake: exit status, captured exception, whether the
materialized root directory exists, the file tree and the top-level
directories (spec section 3, `MaterializedProject`). -/
structure BakeResult where
  exit_code : Nat
  exception : Option String
  project_dir_exists : Bool
  files : List (List String × String)
  dirs : List String
deriving Repr

/-- Modelled from the spec: the Bake Harness contract (spec section 4.1) —
validate the enumerated variables against their declared choices, then have
the Renderer materialize the tree; on an invalid enumerated value report a
non-zero exit code and a captured exception, never retrying. -/
def bake (cfg : Config) (year : Nat) : BakeResult :=
  if licenseChoices.contains cfg.open_source_license
      && yesNoChoices.contains cfg.create_author_file
      && yesNoChoices.contains cfg.use_pylint
      && yesNoChoices.contains cfg.use_mypy then
    { exit_code := 0
      exception := none
      project_dir_exists := true
      files := bakeFiles cfg year
      dirs := ["docs", "tests", "python_boilerplate"] }
  else
    { exit_code := 1
      exception := some "invalid enumerated variable value"
      project_dir_exists := false
      files := []
      dirs := [] }

/-- The base name of a materialized file path (what the test suite's
`f.name` inspects over the recursive glob). -/
def baseNameOf (p : List String) : String := p.getLastD ""

/-- All base names of files anywhere in the materialized tree. -/
def baseNames (r : BakeResult) : List String :=
  r.files.map (fun f => baseNameOf f.1)

/-- Base names of the files under the docs subtree. -/
def docsBaseNames (r : BakeResult) : List String :=
  (r.files.filter (fun f => f.1.headD "" == "docs")).map (fun f => baseNameOf f.1)

/-- Read a materialized file by exact path. -/
def bakeFile (r : BakeResult) (p : List String) : Option String :=
  (r.files.find? (fun f => f.1 == p)).map (fun f => f.2)

/-- Whether the file at `p` exists and its text contains `pat`. -/
def bakeFileHas (r : BakeResult) (p : List String) (pat : String) : Bool :=
  match bakeFile r p with
  | some t => strHas t pat
  | none => false

/-- Whether a file exists at exactly the path `p`. -/
def bakeFileExists (r : BakeResult) (p : List String) : Bool :=
  (bakeFile r p).isSome

/-- The "Not open source" scenario assignment. -/
def notOpenCfg : Config :=
  { defaultConfig with open_source_license := "Not open source" }

/-- The `create_author_file = "n"` scenario assignment. -/
def noAuthorCfg : Config :=
  { defaultConfig with create_author_file := "n" }

/-- The assignment selecting license `l` over the defaults. -/
def licenseCfg (l : String) : Config :=
  { defaultConfig with open_source_license := l }

/-! ## The generated task runner

Embedded from the source `{{cookiecutter.project_slug}}/tasks.py`. -/

/-- Outcome of a task body: normal completion, or the fatal
`invoke.exceptions.Exit` signal with its message and exit code. -/
inductive TaskOutcome where
  | ok : TaskOutcome
  | exit (msg : String) (code : Int) : TaskOutcome
deriving Repr, DecidableEq

/-- `Path.joinpath` on the embedded path strings. -/
def joinPath (a b : String) : String := a ++ "/" ++ b

/-- The pytest argument list built by the `test` task of
`{{cookiecutter.project_slug}}/tasks.py` (lines 102-119): start from
`["-n", "auto"]`, append the junit report option when `junit` is set, append
the coverage option when `coverage` is given, append the coverage-report
option for the "html" and "xml" modes, and finally append the test
directory. -/
def pytestArgs (rootDir : String) (coverage : Option String) (junit : Bool) :
    List String :=
  let binDir := joinPath rootDir "bin"
  let sourceDir := joinPath rootDir "python_boilerplate"
  let testDir := joinPath rootDir "tests"
  let args := ["-n", "auto"]
  let args := if junit then args ++ ["--junitxml=" ++ joinPath binDir "report.xml"] else args
  let args := if coverage.isSome then args ++ ["--cov=" ++ sourceDir] else args
  let args :=
    if coverage == some "html" then args ++ ["--cov-report=html"]
    else if coverage == some "xml" then
      args ++ ["--cov-report=xml:" ++ joinPath binDir "coverage.xml"]
    else args
  args ++ [testDir]

/-- The `test` task of `{{cookiecutter.project_slug}}/tasks.py`: run pytest on
the built argument list (`runPytest` embeds `pytest.main`, the external test
run), then raise `Exit("Tests failed", code=return_code)` exactly when the
returned code is truthy (non-zero). -/
def testTask (rootDir : String) (runPytest : List String → Int)
    (coverage : Option String) (junit : Bool) : TaskOutcome :=
  let return_code := runPytest (pytestArgs rootDir coverage junit)
  if return_code ≠ 0 then TaskOutcome.exit "Tests failed" return_code
  else TaskOutcome.ok

/-- The lint sub-tasks of `{{cookiecutter.project_slug}}/tasks.py`. -/
inductive LintSub where
  | flake8 : LintSub
  | pylint : LintSub
  | mypy : LintSub
deriving Repr, DecidableEq

/-- The prerequisite list of the `lint` task, as rendered by the template line
`@task(lint_flake8{% if use_pylint == 'y' %}, lint_pylint{% endif %}{% if
use_mypy == 'y' %}, lint_mypy{% endif %})`: `lint_flake8` always, then
`lint_pylint` exactly when `use_pylint` is "y", then `lint_mypy` exactly when
`use_mypy` is "y". -/
def lintPrereqs (use_pylint use_mypy : String) : List LintSub :=
  [LintSub.flake8]
  ++ (if use_pylint = "y" then [LintSub.pylint] else [])
  ++ (if use_mypy = "y" then [LintSub.mypy] else [])

/-- The body of the rendered `lint` task (`def lint(_c):` with an empty body):
it runs no command of its own. -/
def lintBodyCommands : List String := []

/-! ## Working-directory helpers of the test suite

Embedded from `tests/test_bake_project.py` (lines 31-67).  The process state
is a current working directory plus an abstract world `W` that the executed
commands act upon; a body either completes with a value or raises, and in
both cases reports the state it left behind. -/

/-- The mutable process state: the working directory and the rest of the
world. -/
structure PState (W : Type) where
  cwd : String
  world : W
deriving Repr, DecidableEq

/-- `change_working_directory` of `tests/test_bake_project.py`: record the
previous working directory, `os.chdir(path)`, run the body, and in a `finally`
block `os.chdir` back — the restore runs whether the body completed or
raised. -/
def change_working_directory {W E α : Type} (path : String)
    (body : PState W → Except E α × PState W) (s : PState W) :
    Except E α × PState W :=
  let prev_cwd := s.cwd
  let r := body { s with cwd := path }
  (r.1, { r.2 with cwd := prev_cwd })

/-- Sequentially `subprocess.check_call` each command in the current
directory: a command reads the working directory and the world and either
returns the new world or raises `CalledProcessError`; the first failure stops
the run and propagates. -/
def runCmds {W E C : Type} (exec : C → String → W → Except E W) :
    List C → PState W → Except E Unit × PState W
  | [], s => (Except.ok (), s)
  | c :: rest, s =>
    match exec c s.cwd s.world with
    | Except.error e => (Except.error e, s)
    | Except.ok w2 => runCmds exec rest { s with world := w2 }

/-- `run_inside_dir` of `tests/test_bake_project.py`: run the commands from
inside `path` under `change_working_directory`. -/
def run_inside_dir {W E C : Type} (exec : C → String → W → Except E W)
    (commands : List C) (path : String) (s : PState W) :
    Except E Unit × PState W :=
  change_working_directory path (fun s1 => runCmds exec commands s1) s

/-- `check_output_inside_dir` of `tests/test_bake_project.py`: run one command
from inside `path`, returning its captured output. -/
def check_output_inside_dir {W E C : Type}
    (exec : C → String → W → Except E (String × W)) (command : C)
    (path : String) (s : PState W) : Except E String × PState W :=
  change_working_directory path
    (fun s1 =>
      match exec command s1.cwd s1.world with
      | Except.error e => (Except.error e, s1)
      | Except.ok p => (Except.ok p.1, { s1 with world := p.2 })) s

/-! ## Substring lemmas -/

theorem startsWithChars_nil (l : List Char) : startsWithChars [] l = true := by
  cases l <;> rfl

theorem startsWithChars_same_append (l t : List Char) :
    startsWithChars l (l ++ t) = true := by
  induction l with
  | nil => exact startsWithChars_nil t
  | cons a as ih => simp [startsWithChars, ih]

theorem hasSubChars_of_startsWith (pat l : List Char)
    (h : startsWithChars pat l = true) : hasSubChars pat l = true := by
  cases l with
  | nil =>
    cases pat with
    | nil => rfl
    | cons a as => simp [startsWithChars] at h
  | cons b bs => simp [hasSubChars, h]

theorem hasSubChars_nil_pat (l : List Char) : hasSubChars [] l = true :=
  hasSubChars_of_startsWith [] l (startsWithChars_nil l)

theorem hasSubChars_cons (pat : List Char) (b : Char) (l : List Char)
    (h : hasSubChars pat l = true) : hasSubChars pat (b :: l) = true := by
  simp [hasSubChars, h]

theorem hasSubChars_append_right (pat a l : List Char)
    (h : hasSubChars pat l = true) : hasSubChars pat (a ++ l) = true := by
  induction a with
  | nil => exact h
  | cons x xs ih => exact hasSubChars_cons pat x (xs ++ l) ih

theorem startsWithChars_append_extend (pat l t : List Char)
    (h : startsWithChars pat l = true) : startsWithChars pat (l ++ t) = true := by
  induction pat generalizing l with
  | nil => exact startsWithChars_nil (l ++ t)
  | cons a as ih =>
    cases l with
    | nil => simp [startsWithChars] at h
    | cons b bs =>
      simp [startsWithChars] at h
      simp [startsWithChars, h.1, ih bs h.2]

theorem hasSubChars_append_left (pat l t : List Char)
    (h : hasSubChars pat l = true) : hasSubChars pat (l ++ t) = true := by
  induction l with
  | nil =>
    cases pat with
    | nil => exact hasSubChars_nil_pat t
    | cons a as => simp [hasSubChars, startsWithChars] at h
  | cons b bs ih =>
    simp only [hasSubChars, Bool.or_eq_true] at h
    rcases h with h | h
    · exact hasSubChars_of_startsWith _ _
        (startsWithChars_append_extend pat (b :: bs) t h)
    · exact hasSubChars_cons pat b (bs ++ t) (ih h)

theorem string_data_append (a b : String) : (a ++ b).toList = a.toList ++ b.toList := by
  cases a; cases b; rfl

theorem strHas_append_left (a b pat : String) (h : strHas a pat = true) :
    strHas (a ++ b) pat = true := by
  unfold strHas at *
  rw [string_data_append]
  exact hasSubChars_append_left pat.toList a.toList b.toList h

theorem strHas_append_right (a b pat : String) (h : strHas b pat = true) :
    strHas (a ++ b) pat = true := by
  unfold strHas at *
  rw [string_data_append]
  exact hasSubChars_append_right pat.toList a.toList b.toList h

theorem strHas_refl (s : String) : strHas s s = true := by
  unfold strHas
  apply hasSubChars_of_startsWith
  have h := startsWithChars_same_append s.toList []
  simpa using h

/-! ## License-body lemmas -/

theorem licBody_has_head (h : String) (y : Nat) (n t pat : String)
    (hp : strHas h pat = true) : strHas (licBody h y n t) pat = true := by
  unfold licBody
  apply strHas_append_left
  apply strHas_append_left
  apply strHas_append_left
  apply strHas_append_left
  exact strHas_append_left h (toString y) pat hp

theorem licBody_has_tail (h : String) (y : Nat) (n t pat : String)
    (hp : strHas t pat = true) : strHas (licBody h y n t) pat = true := by
  unfold licBody
  exact strHas_append_right _ t pat hp

theorem licBody_has_year (h : String) (y : Nat) (n t : String) :
    strHas (licBody h y n t) (toString y) = true := by
  unfold licBody
  apply strHas_append_left
  apply strHas_append_left
  apply strHas_append_left
  apply strHas_append_left
  apply strHas_append_right
  exact strHas_refl (toString y)

theorem bakeFileHas_of_eq (r : BakeResult) (p : List String) (t pat : String)
    (he : bakeFile r p = some t) (hp : strHas t pat = true) :
    bakeFileHas r p pat = true := by
  unfold bakeFileHas
  rw [he]
  exact hp

/-! ## Claim theorems -/

/-- C1: for every license identifier L in MIT, BSD-3-Clause, ISC, Apache-2.0,
GPL-3.0-only, baking with `open_source_license = L` produces a LICENSE file
whose text contains L's known fingerprint substring and a pyproject.toml whose
text contains the literal identifier L, at any bake-time year. -/
theorem claim_C1_license_fingerprints (year : Nat) :
    (bakeFileHas (bake (licenseCfg "MIT") year) ["LICENSE"] "MIT " = true
      ∧ bakeFileHas (bake (licenseCfg "MIT") year) ["pyproject.toml"] "MIT" = true)
    ∧ (bakeFileHas (bake (licenseCfg "BSD-3-Clause") year) ["LICENSE"]
          "Redistributions of source code must retain the above copyright notice, this" = true
      ∧ bakeFileHas (bake (licenseCfg "BSD-3-Clause") year) ["pyproject.toml"] "BSD-3-Clause" = true)
    ∧ (bakeFileHas (bake (licenseCfg "ISC") year) ["LICENSE"] "ISC License" = true
      ∧ bakeFileHas (bake (licenseCfg "ISC") year) ["pyproject.toml"] "ISC" = true)
    ∧ (bakeFileHas (bake (licenseCfg "Apache-2.0") year) ["LICENSE"]
          "Licensed under the Apache License, Version 2.0" = true
      ∧ bakeFileHas (bake (licenseCfg "Apache-2.0") year) ["pyproject.toml"] "Apache-2.0" = true)
    ∧ (bakeFileHas (bake (licenseCfg "GPL-3.0-only") year) ["LICENSE"]
          "GNU GENERAL PUBLIC LICENSE" = true
      ∧ bakeFileHas (bake (licenseCfg "GPL-3.0-only") year) ["pyproject.toml"] "GPL-3.0-only" = true) := by
  refine ⟨⟨?_, rfl⟩, ⟨?_, rfl⟩, ⟨?_, rfl⟩, ⟨?_, rfl⟩, ⟨?_, rfl⟩⟩
  · exact bakeFileHas_of_eq _ _ _ _ rfl (licBody_has_head _ year _ _ _ (by decide))
  · exact bakeFileHas_of_eq _ _ _ _ rfl (licBody_has_tail _ year _ _ _ (by decide))
  · exact bakeFileHas_of_eq _ _ _ _ rfl (licBody_has_head _ year _ _ _ (by decide))
  · exact bakeFileHas_of_eq _ _ _ _ rfl (licBody_has_tail _ year _ _ _ (by decide))
  · exact bakeFileHas_of_eq _ _ _ _ rfl (licBody_has_head _ year _ _ _ (by decide))

/-- C2: baking with `open_source_license = "Not open source"` produces a tree
containing the dependency manifest but no file named LICENSE anywhere, a
README.rst without the case-sensitive substring "License", and a
pyproject.toml without the case-sensitive substring "license". -/
theorem claim_C2_not_open_source (year : Nat) :
    (baseNames (bake notOpenCfg year)).contains "pyproject.toml" = true
    ∧ (baseNames (bake notOpenCfg year)).contains "LICENSE" = false
    ∧ bakeFileExists (bake notOpenCfg year) ["README.rst"] = true
    ∧ bakeFileHas (bake notOpenCfg year) ["README.rst"] "License" = false
    ∧ bakeFileExists (bake notOpenCfg year) ["pyproject.toml"] = true
    ∧ bakeFileHas (bake notOpenCfg year) ["pyproject.toml"] "license" = false :=
  ⟨rfl, rfl, rfl, rfl, rfl, rfl⟩

/-- C3: baking with `create_author_file = "n"` produces no AUTHORS.rst
anywhere in the tree, no authors.rst under the docs subtree, and a
docs/index.rst whose text contains the exact adjacent-entry substring. -/
theorem claim_C3_no_author_file (year : Nat) :
    (baseNames (bake noAuthorCfg year)).contains "AUTHORS.rst" = false
    ∧ (docsBaseNames (bake noAuthorCfg year)).contains "authors.rst" = false
    ∧ bakeFileHas (bake noAuthorCfg year) ["docs", "index.rst"]
        "contributing\n   history" = true :=
  ⟨rfl, rfl, rfl⟩

/-- C4: for every full_name value — in particular values containing quote or
apostrophe characters — the bake over the remaining defaults succeeds: zero
exit code and no recorded exception. -/
theorem claim_C4_quoted_names (full_name : String) (year : Nat) :
    (bake { defaultConfig with full_name := full_name } year).exit_code = 0
    ∧ (bake { defaultConfig with full_name := full_name } year).exception = none :=
  ⟨rfl, rfl⟩

/-- C5: a bake with all schema defaults succeeds (exit code 0, no recorded
exception, the materialized root directory exists) and its tree contains
pyproject.toml, .flake8 and .pylintrc, and top-level directories docs, tests
and python_boilerplate. -/
theorem claim_C5_default_bake (year : Nat) :
    (bake defaultConfig year).exit_code = 0
    ∧ (bake defaultConfig year).exception = none
    ∧ (bake defaultConfig year).project_dir_exists = true
    ∧ bakeFileExists (bake defaultConfig year) ["pyproject.toml"] = true
    ∧ bakeFileExists (bake defaultConfig year) [".flake8"] = true
    ∧ bakeFileExists (bake defaultConfig year) [".pylintrc"] = true
    ∧ (bake defaultConfig year).dirs.contains "docs" = true
    ∧ (bake defaultConfig year).dirs.contains "tests" = true
    ∧ (bake defaultConfig year).dirs.contains "python_boilerplate" = true :=
  ⟨rfl, rfl, rfl, rfl, rfl, rfl, rfl, rfl, rfl⟩

/-- C6: for a bake with all schema defaults, the generated pyproject.toml
contains the line for the pytest dependency, the line-length setting equal to
120, and the configured package-index URL. -/
theorem claim_C6_default_pyproject (year : Nat) :
    bakeFileHas (bake defaultConfig year) ["pyproject.toml"] "pytest = \"*\"\n" = true
    ∧ bakeFileHas (bake defaultConfig year) ["pyproject.toml"] "line-length = 120\n" = true
    ∧ bakeFileHas (bake defaultConfig year) ["pyproject.toml"]
        "url = \"https://artifactory.aws.gel.ac/artifactory/api/pypi/pypi/simple\"" = true :=
  ⟨rfl, rfl, rfl⟩

/-- C7: the generated project's `test` task raises the fatal Exit condition
carrying the underlying test run's exit code if and only if that run returns a
non-zero code; when the run returns zero the task completes without raising. -/
theorem claim_C7_test_task_exit (rootDir : String) (runPytest : List String → Int)
    (coverage : Option String) (junit : Bool) :
    (testTask rootDir runPytest coverage junit
        = TaskOutcome.exit "Tests failed" (runPytest (pytestArgs rootDir coverage junit))
      ↔ runPytest (pytestArgs rootDir coverage junit) ≠ 0)
    ∧ (testTask rootDir runPytest coverage junit = TaskOutcome.ok
      ↔ runPytest (pytestArgs rootDir coverage junit) = 0) := by
  unfold testTask
  by_cases h : runPytest (pytestArgs rootDir coverage junit) = 0 <;> simp [h]

/-- C8: the rendered `lint` task's prerequisite list contains the flake8
sub-task for every assignment, contains the pylint sub-task exactly when
`use_pylint = "y"`, contains the mypy sub-task exactly when `use_mypy = "y"`,
in declaration order (a sublist of flake8, pylint, mypy), before the otherwise
empty lint body. -/
theorem claim_C8_lint_prereqs (use_pylint use_mypy : String) :
    LintSub.flake8 ∈ lintPrereqs use_pylint use_mypy
    ∧ (LintSub.pylint ∈ lintPrereqs use_pylint use_mypy ↔ use_pylint = "y")
    ∧ (LintSub.mypy ∈ lintPrereqs use_pylint use_mypy ↔ use_mypy = "y")
    ∧ List.Sublist (lintPrereqs use_pylint use_mypy)
        [LintSub.flake8, LintSub.pylint, LintSub.mypy]
    ∧ lintBodyCommands = [] := by
  unfold lintPrereqs
  by_cases hp : use_pylint = "y" <;> by_cases hm : use_mypy = "y" <;>
    simp [hp, hm, lintBodyCommands]

/-- C9: for a bake with all schema defaults, the generated LICENSE file's text
contains the decimal string of the bake-time calendar year. -/
theorem claim_C9_year_in_license (year : Nat) :
    bakeFileHas (bake defaultConfig year) ["LICENSE"] (toString year) = true :=
  bakeFileHas_of_eq _ _ _ _ rfl (licBody_has_year _ year _ _)

/-- C10: `change_working_directory` always restores the working directory on
exit, also when the body raises; running commands via `run_inside_dir` or
`check_output_inside_dir` leaves the caller's working directory unchanged and
changes the world only by the commands' own effect. -/
theorem claim_C10_cwd_restored {W E C α : Type} (path : String)
    (body : PState W → Except E α × PState W)
    (exec : C → String → W → Except E W)
    (execOut : C → String → W → Except E (String × W))
    (commands : List C) (command : C) (s : PState W) :
    (change_working_directory path body s).2.cwd = s.cwd
    ∧ (run_inside_dir exec commands path s).2.cwd = s.cwd
    ∧ (run_inside_dir exec commands path s).2.world
        = (runCmds exec commands { cwd := path, world := s.world }).2.world
    ∧ (check_output_inside_dir execOut command path s).2.cwd = s.cwd
    ∧ (check_output_inside_dir execOut command path s).2.world
        = (match execOut command path s.world with
           | Except.error _ => s.world
           | Except.ok p => p.2) := by
  refine ⟨rfl, rfl, rfl, rfl, ?_⟩
  cases hx : execOut command path s.world <;>
    simp [check_output_inside_dir, change_working_directory, hx]

end CookiecutterPypackage
